import Mathlib

/-!
# Verification of the x402 Solana payment facilitator

A shallow embedding of the `x402_solana` package: the transaction codec
(`shared/svm/transaction.py`), the RPC gateway interface (`shared/svm/rpc.py`),
the instruction validator and verification/settlement engines
(`schemes/exact_svm/facilitator.py`) and the client payload builder
(`schemes/exact_svm/client.py`), together with theorems about the claims of
the specification.

Modelling conventions:
* Python byte strings are `List Nat` with every element `< 256`.
* Python exceptions are values of `PyErr`; a Python function that may raise
  returns `Except PyErr α`.  `PyErr.valueError` is `ValueError` (the class the
  engines catch specially) and `PyErr.otherError` is any other exception
  (`struct.error`, `IndexError`, transport errors, ...).
* The network is an explicit oracle (`RpcWorld`) giving the raw outcome of
  each JSON-RPC call; the repository's wrappers around those calls
  (`simulate_transaction`, `send_and_confirm_transaction`, ...) are embedded
  from their source.
* Machine integers are `Nat` with explicit bounds where overflow matters;
  `struct.unpack "<Q"` is `structUnpackU64`, failing exactly when its input
  slice is not 8 bytes long.
-/

deriving instance DecidableEq for Except

set_option maxRecDepth 10000

/-! ## Bytes and little-endian integers -/

/-- Little-endian value of a byte list, as computed by `struct.unpack`. -/
def leVal : List Nat → Nat
  | [] => 0
  | b :: rest => b + 256 * leVal rest

/-- The 8-byte little-endian encoding of `n` (`struct.pack "<Q"`). -/
def u64le (n : Nat) : List Nat :=
  [n % 256, n / 256 % 256, n / 256 ^ 2 % 256, n / 256 ^ 3 % 256,
   n / 256 ^ 4 % 256, n / 256 ^ 5 % 256, n / 256 ^ 6 % 256, n / 256 ^ 7 % 256]

/-- The 4-byte little-endian encoding of `n` (`struct.pack "<I"`). -/
def u32le (n : Nat) : List Nat :=
  [n % 256, n / 256 % 256, n / 256 ^ 2 % 256, n / 256 ^ 3 % 256]

theorem leVal_u64le (n : Nat) (h : n < 2 ^ 64) : leVal (u64le n) = n := by
  simp only [u64le, leVal]
  omega

theorem u64le_length (n : Nat) : (u64le n).length = 8 := rfl

/-! ## Python exceptions -/

/-- A Python exception as seen by the engines' `try/except` blocks:
`valueError` is `ValueError(msg)`; `otherError` is any other exception
(its payload is a description used only for readability). -/
inductive PyErr where
  | valueError (msg : String)
  | otherError (msg : String)
deriving DecidableEq, Repr

/-- `str(e)` on an exception: Python renders `ValueError(msg)` as `msg`;
for other exceptions we carry the rendered message directly. -/
def pyStr : PyErr → String
  | .valueError m => m
  | .otherError m => m

/-- `struct.unpack("<Q", bs)[0]`: succeeds exactly on 8-byte inputs,
otherwise raises `struct.error` (not a `ValueError`). -/
def structUnpackU64 (bs : List Nat) : Except PyErr Nat :=
  if bs.length = 8 then .ok (leVal bs) else .error (.otherError "struct.error")

/-! ## Base64 (`base64.b64encode` / `base64.b64decode`)

The encoder is standard RFC 4648 base64 with padding, exactly what
`base64.b64encode` produces.  The decoder accepts canonically padded base64;
Python's decoder is more lenient on non-canonical inputs, but the two agree
on every output of the encoder, which is all the development relies on. -/

/-- The base64 alphabet in value order. -/
def B64_ALPHABET : List Char :=
  ['A','B','C','D','E','F','G','H','I','J','K','L','M','N','O','P',
   'Q','R','S','T','U','V','W','X','Y','Z','a','b','c','d','e','f',
   'g','h','i','j','k','l','m','n','o','p','q','r','s','t','u','v',
   'w','x','y','z','0','1','2','3','4','5','6','7','8','9','+','/']

/-- The character encoding the 6-bit value `v`. -/
def b64char (v : Nat) : Char := B64_ALPHABET.getD v '?'

/-- The 6-bit value of a base64 character, `none` for non-alphabet characters. -/
def b64value (ch : Char) : Option Nat := B64_ALPHABET.findIdx? (· = ch)

/-- Base64-encode a byte list, three bytes to four characters, with padding. -/
def b64encodeBytes : List Nat → List Char
  | [] => []
  | [a] => [b64char (a / 4), b64char (a % 4 * 16), '=', '=']
  | [a, b] => [b64char (a / 4), b64char (a % 4 * 16 + b / 16), b64char (b % 16 * 4), '=']
  | a :: b :: c :: rest =>
      b64char (a / 4) :: b64char (a % 4 * 16 + b / 16) ::
      b64char (b % 16 * 4 + c / 64) :: b64char (c % 64) :: b64encodeBytes rest

/-- Base64-decode a character list: four characters to three bytes, with the
last group possibly padded.  Fails on non-alphabet characters, misplaced
padding, or a length that is not a multiple of four. -/
def b64decodeChars : List Char → Option (List Nat)
  | [] => some []
  | w :: x :: y :: z :: rest =>
      match b64value w, b64value x with
      | some a, some b =>
          if y = '=' then
            if z = '=' ∧ rest = [] then some [a * 4 + b / 16] else none
          else
            match b64value y with
            | some c =>
                if z = '=' then
                  if rest = [] then some [a * 4 + b / 16, b % 16 * 16 + c / 4] else none
                else
                  match b64value z with
                  | some d =>
                      match b64decodeChars rest with
                      | some tail =>
                          some ((a * 4 + b / 16) :: (b % 16 * 16 + c / 4) ::
                                (c % 4 * 64 + d) :: tail)
                      | none => none
                  | none => none
            | none => none
      | _, _ => none
  | _ => none

theorem b64value_b64char (v : Nat) (h : v < 64) : b64value (b64char v) = some v := by
  interval_cases v <;> rfl

/-- Round-trip of the base64 codec on byte lists. -/
theorem b64decode_b64encode (bs : List Nat) (h : ∀ b ∈ bs, b < 256) :
    b64decodeChars (b64encodeBytes bs) = some bs := by
  induction bs using b64encodeBytes.induct with
  | case1 => rfl
  | case2 a =>
      have ha : a < 256 := h a (by simp)
      simp only [b64encodeBytes, b64decodeChars]
      rw [b64value_b64char _ (by omega), b64value_b64char _ (by omega)]
      simp only [reduceIte, and_self, Option.some.injEq, List.cons.injEq, and_true]
      omega
  | case3 a b =>
      have ha : a < 256 := h a (by simp)
      have hb : b < 256 := h b (by simp)
      simp only [b64encodeBytes, b64decodeChars]
      rw [b64value_b64char _ (by omega), b64value_b64char _ (by omega),
          b64value_b64char _ (by omega)]
      have hne : ¬ b64char (b % 16 * 4) = '=' := by
        have : b % 16 * 4 < 64 := by omega
        interval_cases hbv : (b % 16 * 4) <;> simp [b64char, B64_ALPHABET]
      simp only [hne, reduceIte, if_false, and_self, Option.some.injEq,
        List.cons.injEq, and_true]
      omega
  | case4 a b c rest ih =>
      have ha : a < 256 := h a (by simp)
      have hb : b < 256 := h b (by simp)
      have hc : c < 256 := h c (by simp)
      have hrest : ∀ x ∈ rest, x < 256 := fun x hx => h x (by simp [hx])
      simp only [b64encodeBytes, b64decodeChars]
      rw [b64value_b64char _ (by omega), b64value_b64char _ (by omega),
          b64value_b64char _ (by omega), b64value_b64char _ (by omega)]
      have hne1 : ¬ b64char (b % 16 * 4 + c / 64) = '=' := by
        have : b % 16 * 4 + c / 64 < 64 := by omega
        interval_cases hbv : (b % 16 * 4 + c / 64) <;> simp [b64char, B64_ALPHABET]
      have hne2 : ¬ b64char (c % 64) = '=' := by
        have : c % 64 < 64 := by omega
        interval_cases hbv : (c % 64) <;> simp [b64char, B64_ALPHABET]
      simp only [hne1, hne2, reduceIte, if_false, ih hrest, Option.some.injEq,
        List.cons.injEq, and_true]
      omega

/-! ## The solders/solana wire codec for legacy transactions

`bytes(transaction)` and `Transaction.from_bytes` in the source delegate to
the solders library.  The legacy Solana transaction wire format is embedded
here: compact-u16 ("shortvec") length prefixes, 64-byte signatures, a
3-byte message header, 32-byte account keys, a 32-byte recent blockhash and
compiled instructions (program id index byte, account index bytes, data
bytes). -/

/-- Shortvec (compact-u16) encoding, by fuel (structural recursion so that
the definition evaluates by kernel reduction; the fuel is never exhausted on
the domain used, see `serShortvec`). -/
def serShortvecGo : Nat → Nat → List Nat
  | 0, n => [n]
  | fuel + 1, n =>
      if n < 128 then [n] else (n % 128 + 128) :: serShortvecGo fuel (n / 128)

/-- Shortvec (compact-u16) encoding of a length: base-128 little-endian with
a continuation bit. -/
def serShortvec (n : Nat) : List Nat := serShortvecGo n n

/-- Shortvec decoding; returns the length and the remaining input. -/
def parseShortvec : List Nat → Option (Nat × List Nat)
  | [] => none
  | b :: rest =>
      if b < 128 then some (b, rest)
      else
        match parseShortvec rest with
        | some (n, rest') => some (b - 128 + 128 * n, rest')
        | none => none

theorem parseShortvec_serShortvecGo (fuel n : Nat) (rest : List Nat)
    (h : n < 128 ^ (fuel + 1)) :
    parseShortvec (serShortvecGo fuel n ++ rest) = some (n, rest) := by
  induction fuel generalizing n with
  | zero =>
      have h' : n < 128 := by simpa using h
      simp [serShortvecGo, parseShortvec, h']
  | succ fuel ih =>
      rw [serShortvecGo]
      by_cases hn : n < 128
      · simp [hn, parseShortvec]
      · have hdiv : n / 128 < 128 ^ (fuel + 1) := by
          rw [Nat.div_lt_iff_lt_mul (by norm_num)]
          calc n < 128 ^ (fuel + 1 + 1) := h
          _ = 128 ^ (fuel + 1) * 128 := by ring
        simp only [hn, if_false, List.cons_append, parseShortvec]
        have h2 : ¬ n % 128 + 128 < 128 := by omega
        simp only [h2, if_false, ih _ hdiv]
        congr 2
        omega

theorem self_lt_pow128 (n : Nat) : n < 128 ^ (n + 1) := by
  calc n < 2 ^ n := Nat.lt_two_pow n
  _ ≤ 128 ^ n := Nat.pow_le_pow_left (by norm_num) n
  _ ≤ 128 ^ (n + 1) := Nat.pow_le_pow_right (by norm_num) (by omega)

theorem parseShortvec_serShortvec (n : Nat) (rest : List Nat) :
    parseShortvec (serShortvec n ++ rest) = some (n, rest) :=
  parseShortvec_serShortvecGo n n rest (self_lt_pow128 n)

theorem serShortvecGo_lt (fuel n : Nat) (h : n < 128 ^ (fuel + 1)) :
    ∀ b ∈ serShortvecGo fuel n, b < 256 := by
  induction fuel generalizing n with
  | zero =>
      have h' : n < 128 := by simpa using h
      simp [serShortvecGo]
      omega
  | succ fuel ih =>
      rw [serShortvecGo]
      by_cases hn : n < 128
      · simp [hn]; omega
      · have hdiv : n / 128 < 128 ^ (fuel + 1) := by
          rw [Nat.div_lt_iff_lt_mul (by norm_num)]
          calc n < 128 ^ (fuel + 1 + 1) := h
          _ = 128 ^ (fuel + 1) * 128 := by ring
        simp only [hn, if_false, List.mem_cons]
        rintro b (rfl | hb)
        · omega
        · exact ih _ hdiv b hb

theorem serShortvec_lt (n : Nat) : ∀ b ∈ serShortvec n, b < 256 :=
  serShortvecGo_lt n n (self_lt_pow128 n)

/-- A compiled instruction as it appears inside a transaction message:
the program id is a byte index into the message's account keys, the
referenced accounts are index bytes, the data is an opaque byte buffer.
(`solders.instruction.CompiledInstruction`: `program_id_index`,
`accounts`, `data`.) -/
structure CompiledInstruction where
  programIdIndex : Nat
  accounts : List Nat
  data : List Nat
deriving DecidableEq, Repr

/-- The three-byte message header. -/
structure MessageHeader where
  numRequiredSignatures : Nat
  numReadonlySignedAccounts : Nat
  numReadonlyUnsignedAccounts : Nat
deriving DecidableEq, Repr

/-- A legacy transaction message (`solders.message.Message`): header, static
account keys (32-byte values), recent blockhash (32 bytes), compiled
instructions.  `static_account_keys` of a legacy message is exactly
`accountKeys`. -/
structure Message where
  header : MessageHeader
  accountKeys : List (List Nat)
  recentBlockhash : List Nat
  instructions : List CompiledInstruction
deriving DecidableEq, Repr

/-- A transaction (`solders.transaction.Transaction`): attached signatures
(64-byte values) and a message. -/
structure Transaction where
  signatures : List (List Nat)
  message : Message
deriving DecidableEq, Repr

/-- Wire serialization of a compiled instruction. -/
def serInstruction (i : CompiledInstruction) : List Nat :=
  i.programIdIndex :: (serShortvec i.accounts.length ++ i.accounts ++
    serShortvec i.data.length ++ i.data)

/-- Wire serialization of a message. -/
def serMessage (m : Message) : List Nat :=
  m.header.numRequiredSignatures :: m.header.numReadonlySignedAccounts ::
  m.header.numReadonlyUnsignedAccounts ::
  (serShortvec m.accountKeys.length ++ m.accountKeys.flatten ++
   m.recentBlockhash ++ serShortvec m.instructions.length ++
   (m.instructions.map serInstruction).flatten)

/-- Wire serialization of a transaction (`bytes(transaction)`). -/
def serTransaction (t : Transaction) : List Nat :=
  serShortvec t.signatures.length ++ t.signatures.flatten ++ serMessage t.message

/-- Read exactly `k` bytes. -/
def parseBytes (k : Nat) (l : List Nat) : Option (List Nat × List Nat) :=
  if k ≤ l.length then some (l.take k, l.drop k) else none

/-- Read one byte. -/
def parseByte : List Nat → Option (Nat × List Nat)
  | [] => none
  | b :: rest => some (b, rest)

/-- Read `n` items with the item parser `p`. -/
def parseCount (p : List Nat → Option (α × List Nat)) :
    Nat → List Nat → Option (List α × List Nat)
  | 0, l => some ([], l)
  | n + 1, l =>
      match p l with
      | some (x, l') =>
          match parseCount p n l' with
          | some (xs, l'') => some (x :: xs, l'')
          | none => none
      | none => none

/-- Parse a compiled instruction. -/
def parseInstruction (l : List Nat) : Option (CompiledInstruction × List Nat) :=
  match parseByte l with
  | some (pidx, l) =>
      match parseShortvec l with
      | some (na, l) =>
          match parseBytes na l with
          | some (accts, l) =>
              match parseShortvec l with
              | some (nd, l) =>
                  match parseBytes nd l with
                  | some (dat, l) => some (⟨pidx, accts, dat⟩, l)
                  | none => none
              | none => none
          | none => none
      | none => none
  | none => none

/-- Parse a message. -/
def parseMessage (l : List Nat) : Option (Message × List Nat) :=
  match parseByte l with
  | some (h1, l) =>
      match parseByte l with
      | some (h2, l) =>
          match parseByte l with
          | some (h3, l) =>
              match parseShortvec l with
              | some (nk, l) =>
                  match parseCount (parseBytes 32) nk l with
                  | some (keys, l) =>
                      match parseBytes 32 l with
                      | some (bh, l) =>
                          match parseShortvec l with
                          | some (ni, l) =>
                              match parseCount parseInstruction ni l with
                              | some (instrs, l) =>
                                  some (⟨⟨h1, h2, h3⟩, keys, bh, instrs⟩, l)
                              | none => none
                          | none => none
                      | none => none
                  | none => none
              | none => none
          | none => none
      | none => none
  | none => none

/-- Parse a transaction from wire bytes (`Transaction.from_bytes`); the whole
input must be consumed. -/
def txFromBytes (l : List Nat) : Option Transaction :=
  match parseShortvec l with
  | some (ns, l) =>
      match parseCount (parseBytes 64) ns l with
      | some (sigs, l) =>
          match parseMessage l with
          | some (msg, l) => if l = [] then some ⟨sigs, msg⟩ else none
          | none => none
      | none => none
  | none => none

theorem parseBytes_append (xs rest : List Nat) (k : Nat) (h : xs.length = k) :
    parseBytes k (xs ++ rest) = some (xs, rest) := by
  subst h
  simp [parseBytes, List.take_left, List.drop_left]

theorem parseCount_append {α : Type} (p : List Nat → Option (α × List Nat))
    (ser : α → List Nat) (xs : List α) (rest : List Nat)
    (hp : ∀ x ∈ xs, ∀ r, p (ser x ++ r) = some (x, r)) :
    parseCount p xs.length ((xs.map ser).flatten ++ rest) = some (xs, rest) := by
  induction xs with
  | nil => simp [parseCount]
  | cons x xs ih =>
      simp only [List.map_cons, List.flatten_cons, List.length_cons, parseCount,
        List.append_assoc, hp x (by simp)]
      rw [ih (fun y hy r => hp y (by simp [hy]) r)]

theorem parseInstruction_append (i : CompiledInstruction) (rest : List Nat) :
    parseInstruction (serInstruction i ++ rest) = some (i, rest) := by
  simp only [serInstruction, parseInstruction, List.cons_append, parseByte,
    List.append_assoc, parseShortvec_serShortvec,
    parseBytes_append _ _ _ rfl]

theorem parseMessage_append (m : Message) (rest : List Nat)
    (hkeys : ∀ k ∈ m.accountKeys, k.length = 32)
    (hbh : m.recentBlockhash.length = 32) :
    parseMessage (serMessage m ++ rest) = some (m, rest) := by
  have h_instrs : parseCount parseInstruction m.instructions.length
      ((m.instructions.map serInstruction).flatten ++ rest) =
      some (m.instructions, rest) :=
    parseCount_append _ serInstruction _ _ (fun i _ r => parseInstruction_append i r)
  have h_bh : parseBytes 32 (m.recentBlockhash ++
      (serShortvec m.instructions.length ++
        ((m.instructions.map serInstruction).flatten ++ rest))) =
      some (m.recentBlockhash, serShortvec m.instructions.length ++
        ((m.instructions.map serInstruction).flatten ++ rest)) :=
    parseBytes_append _ _ _ hbh
  have h_keys : parseCount (parseBytes 32) m.accountKeys.length
      ((m.accountKeys.map id).flatten ++ (m.recentBlockhash ++
        (serShortvec m.instructions.length ++
          ((m.instructions.map serInstruction).flatten ++ rest)))) =
      some (m.accountKeys, m.recentBlockhash ++
        (serShortvec m.instructions.length ++
          ((m.instructions.map serInstruction).flatten ++ rest))) :=
    parseCount_append _ id _ _ (fun k hk r => parseBytes_append k r 32 (hkeys k hk))
  rw [List.map_id] at h_keys
  simp only [serMessage, parseMessage, List.cons_append, parseByte,
    List.append_assoc, h_keys, h_bh, parseShortvec_serShortvec, h_instrs]

theorem txFromBytes_serTransaction (t : Transaction)
    (hsigs : ∀ s ∈ t.signatures, s.length = 64)
    (hkeys : ∀ k ∈ t.message.accountKeys, k.length = 32)
    (hbh : t.message.recentBlockhash.length = 32) :
    txFromBytes (serTransaction t) = some t := by
  have h_msg : parseMessage (serMessage t.message ++ []) = some (t.message, []) :=
    parseMessage_append t.message [] hkeys hbh
  rw [List.append_nil] at h_msg
  have h_sigs : parseCount (parseBytes 64) t.signatures.length
      ((t.signatures.map id).flatten ++ serMessage t.message) =
      some (t.signatures, serMessage t.message) :=
    parseCount_append _ id _ _ (fun s hs r => parseBytes_append s r 64 (hsigs s hs))
  rw [List.map_id] at h_sigs
  simp only [serTransaction, txFromBytes, List.append_assoc,
    parseShortvec_serShortvec, h_sigs, h_msg, if_true]

/-- Well-formedness of a transaction value, as guaranteed by construction in
the solders library: 64-byte signatures, a 3-byte header, 32-byte account
keys and blockhash, byte-valued instruction fields, and all vector lengths
within the compact-u16 range. -/
def WFTransaction (t : Transaction) : Prop :=
  (∀ s ∈ t.signatures, s.length = 64 ∧ ∀ b ∈ s, b < 256) ∧
  t.signatures.length < 65536 ∧
  t.message.header.numRequiredSignatures < 256 ∧
  t.message.header.numReadonlySignedAccounts < 256 ∧
  t.message.header.numReadonlyUnsignedAccounts < 256 ∧
  (∀ k ∈ t.message.accountKeys, k.length = 32 ∧ ∀ b ∈ k, b < 256) ∧
  t.message.accountKeys.length < 65536 ∧
  t.message.recentBlockhash.length = 32 ∧
  (∀ b ∈ t.message.recentBlockhash, b < 256) ∧
  t.message.instructions.length < 65536 ∧
  (∀ i ∈ t.message.instructions, i.programIdIndex < 256 ∧
    (∀ a ∈ i.accounts, a < 256) ∧ i.accounts.length < 65536 ∧
    (∀ d ∈ i.data, d < 256) ∧ i.data.length < 65536)

instance (t : Transaction) : Decidable (WFTransaction t) := by
  unfold WFTransaction
  infer_instance

theorem serTransaction_lt (t : Transaction) (h : WFTransaction t) :
    ∀ b ∈ serTransaction t, b < 256 := by
  obtain ⟨hsig, -, hh1, hh2, hh3, hkeys, -, -, hbh, -, hinstr⟩ := h
  intro b hb
  simp only [serTransaction, serMessage, serInstruction, List.mem_append,
    List.cons_append, List.mem_cons, List.mem_flatten, List.mem_map] at hb
  rcases hb with (hb | ⟨s, hs, hbs⟩) | rfl | rfl | rfl |
    (((hb | ⟨k, hk, hbk⟩) | hb) | hb) | ⟨l, ⟨i, hi, rfl⟩, hbl⟩
  · exact serShortvec_lt _ b hb
  · exact (hsig s hs).2 b hbs
  · exact hh1
  · exact hh2
  · exact hh3
  · exact serShortvec_lt _ b hb
  · exact (hkeys k hk).2 b hbk
  · exact hbh b hb
  · exact serShortvec_lt _ b hb
  · obtain ⟨hpi, hacc, -, hdat, -⟩ := hinstr i hi
    simp only [List.mem_cons, List.mem_append] at hbl
    rcases hbl with rfl | ((hbl | hbl) | hbl) | hbl
    · exact hpi
    · exact serShortvec_lt _ b hbl
    · exact hacc b hbl
    · exact serShortvec_lt _ b hbl
    · exact hdat b hbl

/-! ## Transaction codec (`x402_solana/shared/svm/transaction.py`) -/

/-- An account identifier.  The source compares accounts through their base58
`str()` form; since base58 rendering is injective on byte strings, the
comparisons are modelled directly on the underlying bytes. -/
abbrev Pubkey := List Nat

/-- `TokenkegQfeZyiNwAJbNbGKPFXCWuBvf9Ss623VQ5DA`, base58-decoded. -/
def TOKEN_PROGRAM : Pubkey :=
  [6, 221, 246, 225, 215, 101, 161, 147, 217, 203, 225, 70, 206, 235, 121, 172,
   28, 180, 133, 237, 95, 91, 55, 145, 58, 140, 245, 133, 126, 255, 0, 169]

/-- `TokenzQdBNbLqP5VEhdkAW6Q5YdDaTKSHvHjKAE9zZPJU`, base58-decoded.  (The
string constant in the source decodes to 33 bytes, so it can never equal a
32-byte transaction account key; the model keeps the faithful value.) -/
def TOKEN_2022_PROGRAM : Pubkey :=
  [90, 60, 192, 48, 225, 128, 214, 130, 118, 200, 23, 198, 41, 165, 193, 15,
   170, 242, 119, 225, 167, 117, 113, 61, 123, 251, 215, 192, 126, 148, 155,
   141, 93]

/-- `ComputeBudget111111111111111111111111111111`, base58-decoded
(`solders.compute_budget.COMPUTE_BUDGET_PROGRAM_ID`). -/
def COMPUTE_BUDGET_PROGRAM_ID : Pubkey :=
  [3, 6, 70, 111, 229, 33, 23, 50, 255, 236, 173, 186, 114, 195, 155, 231,
   188, 140, 229, 187, 197, 247, 18, 107, 44, 67, 155, 58, 64, 0, 0, 0]

/-- `encode_transaction_to_base64`: serialize and base64-encode. -/
def encode_transaction_to_base64 (transaction : Transaction) : String :=
  String.mk (b64encodeBytes (serTransaction transaction))

/-- `decode_transaction_from_base64`: base64-decode and parse; any failure of
either step collapses to `ValueError("invalid_exact_svm_payload_transaction")`. -/
def decode_transaction_from_base64 (encoded : String) : Except PyErr Transaction :=
  match b64decodeChars encoded.data with
  | none => .error (.valueError "invalid_exact_svm_payload_transaction")
  | some txBytes =>
      match txFromBytes txBytes with
      | none => .error (.valueError "invalid_exact_svm_payload_transaction")
      | some tx => .ok tx

/-- The scheme-specific payload: a base64-encoded partially-signed transaction. -/
structure ExactSvmPayload where
  transaction : String
deriving DecidableEq, Repr

/-- `decode_transaction_from_payload`. -/
def decode_transaction_from_payload (payload : ExactSvmPayload) : Except PyErr Transaction :=
  decode_transaction_from_base64 payload.transaction

/-- The instruction scan of `get_token_payer_from_transaction`: find a
token-program instruction with at least 4 referenced accounts and return the
account at position 3.  Indexing `static_accounts[program_index]` is
unguarded in the source, so an out-of-range program id index raises
`IndexError`; the guarded owner lookup falls through to the next
instruction. -/
def tokenPayerScan (staticAccounts : List Pubkey) :
    List CompiledInstruction → Except PyErr (Option Pubkey)
  | [] => .ok none
  | instruction :: rest =>
      match staticAccounts[instruction.programIdIndex]? with
      | none => .error (.otherError "IndexError")
      | some programKey =>
          if programKey = TOKEN_PROGRAM ∨ programKey = TOKEN_2022_PROGRAM then
            if 4 ≤ instruction.accounts.length then
              let ownerIndex := instruction.accounts.getD 3 0
              if ownerIndex < staticAccounts.length then
                .ok staticAccounts[ownerIndex]?
              else tokenPayerScan staticAccounts rest
            else tokenPayerScan staticAccounts rest
          else tokenPayerScan staticAccounts rest

/-- `get_token_payer_from_transaction`: extract the owner (position-3 account)
of the first token-program instruction with at least 4 referenced accounts. -/
def get_token_payer_from_transaction (transaction : Transaction) :
    Except PyErr (Option Pubkey) :=
  tokenPayerScan transaction.message.accountKeys transaction.message.instructions

/-- `Transaction.new_signed(message, signatures)`: a new transaction value
carrying the given signature list. -/
def Transaction.newSigned (message : Message) (signatures : List (List Nat)) :
    Transaction :=
  ⟨signatures, message⟩

/-! ## Payment data model (`x402_solana/types/`) -/

/-- `PaymentRequirementsExtra`. -/
structure PaymentRequirementsExtra where
  feePayer : Pubkey
deriving DecidableEq, Repr

/-- `PaymentRequirements`.  The pydantic validator guarantees that
`max_amount_required` is the decimal string of a non-negative integer; the
field is modelled as that integer (the source reads it back with `int(...)`).
`asset` and `pay_to` are account identifiers (see `Pubkey`). -/
structure PaymentRequirements where
  scheme : String
  network : String
  maxAmountRequired : Nat
  asset : Pubkey
  payTo : Pubkey
  resource : String
  description : String
  mimeType : String
  maxTimeoutSeconds : Nat
  extra : PaymentRequirementsExtra
deriving DecidableEq, Repr

/-- `PaymentPayload`. -/
structure PaymentPayload where
  x402Version : Nat
  scheme : String
  network : String
  payload : ExactSvmPayload
deriving DecidableEq, Repr

/-- `VerifyResponse`. -/
structure VerifyResponse where
  isValid : Bool
  invalidReason : Option String
  payer : Option Pubkey
deriving DecidableEq, Repr

/-- `SettleResponse`. -/
structure SettleResponse where
  success : Bool
  errorReason : Option String
  transaction : String
  network : String
  payer : Option Pubkey
deriving DecidableEq, Repr

/-- `ERROR_REASONS` (`x402_solana/shared/svm/wallet.py`): the closed set of
reason codes the verification engine recognises. -/
def ERROR_REASONS : List String :=
  ["unsupported_scheme",
   "invalid_network",
   "invalid_exact_svm_payload_transaction",
   "invalid_exact_svm_payload_transaction_instructions_length",
   "invalid_exact_svm_payload_transaction_instructions",
   "invalid_exact_svm_payload_transaction_instructions_compute_limit_instruction",
   "invalid_exact_svm_payload_transaction_instructions_compute_price_instruction",
   "invalid_exact_svm_payload_transaction_instructions_compute_price_instruction_too_high",
   "invalid_exact_svm_payload_transaction_create_ata_instruction",
   "invalid_exact_svm_payload_transaction_create_ata_instruction_incorrect_payee",
   "invalid_exact_svm_payload_transaction_create_ata_instruction_incorrect_asset",
   "invalid_exact_svm_payload_transaction_transfer_to_incorrect_ata",
   "invalid_exact_svm_payload_transaction_sender_ata_not_found",
   "invalid_exact_svm_payload_transaction_receiver_ata_not_found",
   "invalid_exact_svm_payload_transaction_amount_mismatch",
   "invalid_exact_svm_payload_transaction_instruction_not_spl_token_transfer_checked",
   "invalid_exact_svm_payload_transaction_instruction_not_token_2022_transfer_checked",
   "invalid_exact_svm_payload_transaction_not_a_transfer_instruction",
   "invalid_exact_svm_payload_transaction_simulation_failed",
   "unexpected_verify_error",
   "unexpected_settle_error"]

/-! ## Network gateway (`x402_solana/shared/svm/rpc.py`)

The JSON-RPC node itself is outside the program; an `RpcWorld` oracle gives
the raw outcome of each network call, and the repository's wrappers around
those calls are embedded from their source. -/

/-- The simulation result dictionary, reduced to the two fields the engine
reads: the truthiness of `result.get("err")` and of
`result.get("value", {}).get("err")` (the latter `true` only when `value` is
a dict with a truthy `err`). -/
structure SimResult where
  err : Bool
  valueErr : Bool
deriving DecidableEq, Repr

/-- Raw outcome of a `simulateTransaction` call: a transport-level failure
(HTTP error, malformed reply, ... — any raised exception), a JSON-RPC reply
carrying an `error` member (rendered as `msg`), or a result. -/
inductive SimOutcome where
  | transportError (msg : String)
  | rpcError (msg : String)
  | ok (result : SimResult)
deriving DecidableEq, Repr

/-- Raw outcome of a `sendTransaction` call. -/
inductive SendOutcome where
  | transportError (msg : String)
  | rpcError (msg : String)
  | ok (signature : String)
deriving DecidableEq, Repr

/-- Raw outcome of one `getSignatureStatuses` poll: an exception during the
call, or the truthiness of `result.value[0]`. -/
inductive PollOutcome where
  | exn (msg : String)
  | status (present : Bool)
deriving DecidableEq, Repr

/-- The network oracle: raw outcomes of the three JSON-RPC calls the engines
make, as functions of the RPC URL, the transaction (or signature), and — for
polling — the attempt index. -/
structure RpcWorld where
  simulateRaw : String → Transaction → SimOutcome
  sendRaw : String → Transaction → SendOutcome
  statusRaw : String → String → Nat → PollOutcome

/-- `MAINNET_ENDPOINTS[0]`. -/
def MAINNET_ENDPOINT : String := "https://api.mainnet-beta.solana.com"

/-- `DEVNET_ENDPOINTS[0]`. -/
def DEVNET_ENDPOINT : String := "https://api.devnet.solana.com"

/-- `create_rpc_client`: pick the RPC URL; a truthy custom URL wins, an
unsupported network raises `ValueError(f"Unsupported network: ...")`. -/
def create_rpc_client (network : String) (customUrl : Option String) :
    Except PyErr String :=
  if customUrl.getD "" ≠ "" then .ok (customUrl.getD "")
  else if network = "solana" then .ok MAINNET_ENDPOINT
  else if network = "solana-devnet" then .ok DEVNET_ENDPOINT
  else .error (.valueError ("Unsupported network: " ++ network))

/-- `simulate_transaction`: run the RPC call; a raised transport error
propagates, an `error` member becomes `ValueError(f"Simulation error: ...")`,
otherwise the result dictionary is returned. -/
def simulate_transaction (world : RpcWorld) (rpcUrl : String)
    (transaction : Transaction) (sigVerify : Bool) : Except PyErr SimResult :=
  match world.simulateRaw rpcUrl transaction with
  | .transportError m => .error (.otherError m)
  | .rpcError m => .error (.valueError ("Simulation error: " ++ m))
  | .ok r => .ok r

/-- The confirmation poll loop of `send_and_confirm_transaction`: up to
`remaining` further attempts at index `attempt`; a truthy status returns
success, an exception is caught by the enclosing `try` (losing the
signature), and exhaustion of the 40 attempts still returns success with the
signature. -/
def confirmLoop (world : RpcWorld) (rpcUrl signature : String) :
    Nat → Nat → Bool × Option String × Option PyErr
  | _, 0 => (true, some signature, none)
  | attempt, remaining + 1 =>
      match world.statusRaw rpcUrl signature attempt with
      | .exn m => (false, none, some (.otherError m))
      | .status true => (true, some signature, none)
      | .status false => confirmLoop world rpcUrl signature (attempt + 1) remaining

/-- `send_and_confirm_transaction`: submit, then poll `getSignatureStatuses`
up to 40 times; every exception is caught and returned as
`(False, None, e)`, an RPC-level `error` member becomes
`ValueError(f"RPC error: ...")`, and a timeout without confirmation is
reported as success with the signature. -/
def send_and_confirm_transaction (world : RpcWorld) (rpcUrl : String)
    (transaction : Transaction) (commitment : String) :
    Bool × Option String × Option PyErr :=
  match world.sendRaw rpcUrl transaction with
  | .transportError m => (false, none, some (.otherError m))
  | .rpcError m => (false, none, some (.valueError ("RPC error: " ++ m)))
  | .ok signature => confirmLoop world rpcUrl signature 0 40

/-! ## Facilitator (`x402_solana/schemes/exact_svm/facilitator.py`) -/

/-- `instruction.program_id` for an instruction of a decoded message: the
account key referenced by `program_id_index`, raising (like the underlying
accessor) when the index is out of range of the static account keys. -/
def compiledProgramId (keys : List Pubkey) (instruction : CompiledInstruction) :
    Except PyErr Pubkey :=
  match keys[instruction.programIdIndex]? with
  | some k => .ok k
  | none => .error (.otherError "IndexError")

/-- `verify_schemes_and_networks`: both schemes must be `"exact"`, the
networks must match, and the requirement network must be supported. -/
def verify_schemes_and_networks (payload : PaymentPayload)
    (paymentRequirements : PaymentRequirements) : Except PyErr Unit :=
  if payload.scheme ≠ "exact" ∨ paymentRequirements.scheme ≠ "exact" then
    .error (.valueError "unsupported_scheme")
  else if payload.network ≠ paymentRequirements.network then
    .error (.valueError "invalid_network")
  else if paymentRequirements.network ∉ ["solana", "solana-devnet"] then
    .error (.valueError "invalid_network")
  else .ok ()

/-- `verify_compute_budget_instructions`: exactly two instructions; the
first must target the compute-budget program, and if its data is longer than
one byte with tag byte 3 (set compute unit price), the 8-byte little-endian
price at offset 1 must not exceed 5,000,000.  The second instruction is
never examined. -/
def verify_compute_budget_instructions (keys : List Pubkey)
    (instructions : List CompiledInstruction) : Except PyErr Unit :=
  match instructions with
  | [price_ix, _] => do
      let pid ← compiledProgramId keys price_ix
      if pid ≠ COMPUTE_BUDGET_PROGRAM_ID then
        .error (.valueError
          "invalid_exact_svm_payload_transaction_instructions_compute_price_instruction")
      else if price_ix.data.length > 1 then
        if price_ix.data.getD 0 0 = 3 then do
          let microLamports ← structUnpackU64 ((price_ix.data.drop 1).take 8)
          if microLamports > 5000000 then
            .error (.valueError
              "invalid_exact_svm_payload_transaction_instructions_compute_price_instruction_too_high")
          else .ok ()
        else .ok ()
      else .ok ()
  | _ =>
      .error (.valueError "invalid_exact_svm_payload_transaction_instructions_length")

/-- `verify_transfer_instruction`: the instruction must target one of the two
token programs, its data must be at least 9 bytes, and the 8-byte
little-endian amount at offset 1 must be at least the required amount. -/
def verify_transfer_instruction (keys : List Pubkey)
    (instruction : CompiledInstruction)
    (paymentRequirements : PaymentRequirements) (rpcUrl : String) :
    Except PyErr Unit := do
  let programId ← compiledProgramId keys instruction
  if programId ≠ TOKEN_PROGRAM ∧ programId ≠ TOKEN_2022_PROGRAM then
    .error (.valueError "invalid_exact_svm_payload_transaction_not_a_transfer_instruction")
  else if instruction.data.length < 9 then
    .error (.valueError "invalid_exact_svm_payload_transaction_instructions")
  else do
    let instructionAmount ← structUnpackU64 ((instruction.data.drop 1).take 8)
    let requiredAmount := paymentRequirements.maxAmountRequired
    if instructionAmount < requiredAmount then
      .error (.valueError "invalid_exact_svm_payload_transaction_amount_mismatch")
    else .ok ()

/-- The post-decode body of `transaction_introspection`: at least three
instructions, the first two checked as compute-budget directives, the third
as the transfer. -/
def introspect_decoded (transaction : Transaction)
    (paymentRequirements : PaymentRequirements) (rpcUrl : String) :
    Except PyErr Unit :=
  let message := transaction.message
  match message.instructions with
  | a :: b :: transfer_ix :: _ => do
      verify_compute_budget_instructions message.accountKeys [a, b]
      verify_transfer_instruction message.accountKeys transfer_ix
        paymentRequirements rpcUrl
  | _ =>
      .error (.valueError "invalid_exact_svm_payload_transaction_instructions_length")

/-- `transaction_introspection`: decode the payload and validate structure
and details of the transaction. -/
def transaction_introspection (svmPayload : ExactSvmPayload)
    (paymentRequirements : PaymentRequirements) (rpcUrl : String) :
    Except PyErr Unit := do
  let transaction ← decode_transaction_from_payload svmPayload
  introspect_decoded transaction paymentRequirements rpcUrl

/-- The facilitator's signing capability (`solders.keypair.Keypair`):
`pubkey()` and `sign_message`. -/
structure Signer where
  pubkey : Pubkey
  sign : List Nat → List Nat

/-- The best-effort payer extraction both `except` branches of
`verify_payment` perform: decode and scan, with any exception collapsed to
`None`. -/
def bestEffortPayer (payload : ExactSvmPayload) : Option Pubkey :=
  match decode_transaction_from_payload payload with
  | .error _ => none
  | .ok tx =>
      match get_token_payer_from_transaction tx with
      | .error _ => none
      | .ok p => p

/-- The `try` body of `verify_payment`: guard, decode, RPC URL,
introspection, simulation (with both the top-level and the nested
`value.err` checks), then payer extraction. -/
def verify_payment_inner (world : RpcWorld) (signer : Signer)
    (payload : PaymentPayload) (paymentRequirements : PaymentRequirements)
    (customRpcUrl : Option String) : Except PyErr VerifyResponse := do
  verify_schemes_and_networks payload paymentRequirements
  let decodedTransaction ← decode_transaction_from_payload payload.payload
  let rpcUrl ← create_rpc_client paymentRequirements.network customRpcUrl
  transaction_introspection payload.payload paymentRequirements rpcUrl
  let simulationResult ← simulate_transaction world rpcUrl decodedTransaction true
  if simulationResult.err then
    .error (.valueError "invalid_exact_svm_payload_transaction_simulation_failed")
  else if simulationResult.valueErr then
    .error (.valueError "invalid_exact_svm_payload_transaction_simulation_failed")
  else do
    let payer ← get_token_payer_from_transaction decodedTransaction
    .ok ⟨true, none, payer⟩

/-- `verify_payment`: the `try` body wrapped by the two `except` clauses.  A
`ValueError` whose message is a recognised reason yields a structured
invalid response (with best-effort payer); a `ValueError` with any other
message is re-raised (the bare `raise` after the membership test — the later
`except Exception` clause of the same `try` statement does not catch it);
any other exception yields `unexpected_verify_error`. -/
def verify_payment (world : RpcWorld) (signer : Signer)
    (payload : PaymentPayload) (paymentRequirements : PaymentRequirements)
    (customRpcUrl : Option String) : Except PyErr VerifyResponse :=
  match verify_payment_inner world signer payload paymentRequirements customRpcUrl with
  | .ok r => .ok r
  | .error (.valueError msg) =>
      if msg ∈ ERROR_REASONS then
        .ok ⟨false, some msg, bestEffortPayer payload.payload⟩
      else .error (.valueError msg)
  | .error (.otherError _) =>
      .ok ⟨false, some "unexpected_verify_error", bestEffortPayer payload.payload⟩

/-- `settle_payment`: verify, then re-decode, append the facilitator's
signature to the client's, submit and poll.  There is no `try/except` here:
any exception raised along the way propagates to the caller. -/
def settle_payment (world : RpcWorld) (signer : Signer)
    (payload : PaymentPayload) (paymentRequirements : PaymentRequirements)
    (customRpcUrl : Option String) : Except PyErr SettleResponse := do
  let verifyResponse ← verify_payment world signer payload paymentRequirements customRpcUrl
  if !verifyResponse.isValid then
    pure { success := false, errorReason := verifyResponse.invalidReason,
           network := payload.network, transaction := "",
           payer := verifyResponse.payer }
  else do
    let decodedTransaction ← decode_transaction_from_payload payload.payload
    let messageBytes := serMessage decodedTransaction.message
    let facilitatorSignature := signer.sign messageBytes
    let existingSignatures := decodedTransaction.signatures
    let allSignatures := existingSignatures ++ [facilitatorSignature]
    let fullySignedTransaction :=
      Transaction.newSigned decodedTransaction.message allSignatures
    let payer ← get_token_payer_from_transaction decodedTransaction
    let rpcUrl ← create_rpc_client paymentRequirements.network customRpcUrl
    let (success, signature, error) :=
      send_and_confirm_transaction world rpcUrl fullySignedTransaction "confirmed"
    if success ∧ signature.getD "" ≠ "" then
      pure { success := true, errorReason := none,
             network := payload.network, transaction := signature.getD "",
             payer := payer }
    else
      pure { success := false,
             errorReason := some (match error with
               | some e => pyStr e
               | none => "transaction_failed"),
             network := payload.network, transaction := signature.getD "",
             payer := payer }

/-! ## Client payload builder (`x402_solana/schemes/exact_svm/client.py`)

The builder-side instruction values carry a resolved program id and
`AccountMeta` entries (`solders.instruction.Instruction`); compiling them
into a legacy message (`Message.new_with_blockhash`) assembles the static
account key list and turns every reference into an index. -/

/-- `solders.instruction.AccountMeta`. -/
structure AccountMeta where
  pubkey : Pubkey
  isSigner : Bool
  isWritable : Bool
deriving DecidableEq, Repr

/-- A builder-level instruction (`solders.instruction.Instruction`). -/
structure Instruction where
  programId : Pubkey
  accounts : List AccountMeta
  data : List Nat
deriving DecidableEq, Repr

/-- `set_compute_unit_price(micro_lamports)`: compute-budget instruction,
tag byte 3, 8-byte little-endian price. -/
def set_compute_unit_price (microLamports : Nat) : Instruction :=
  ⟨COMPUTE_BUDGET_PROGRAM_ID, [], 3 :: u64le microLamports⟩

/-- `set_compute_unit_limit(units)`: compute-budget instruction, tag byte 2,
4-byte little-endian limit. -/
def set_compute_unit_limit (units : Nat) : Instruction :=
  ⟨COMPUTE_BUDGET_PROGRAM_ID, [], 2 :: u32le units⟩

/-- `create_transfer_instruction`: an SPL `Transfer` (tag byte 3, 8-byte
little-endian amount) over `[source, destination, authority]`.  (The
`spl.token.instructions.transfer` call in the `try` branch passes two
positional arguments to a one-parameter function and raises `TypeError`, so
the manual fallback is the path actually executed; both shapes carry three
accounts.) -/
def create_transfer_instruction (source destination owner : Pubkey)
    (amount : Nat) (decimals : Nat) : Instruction :=
  ⟨TOKEN_PROGRAM,
   [⟨source, false, true⟩, ⟨destination, false, true⟩, ⟨owner, true, false⟩],
   3 :: u64le amount⟩

/-- Merge one account reference into the collected key metadata (flags are
or-ed, first occurrence fixes nothing but presence). -/
def upsertMeta (metas : List (Pubkey × Bool × Bool)) (k : Pubkey)
    (isSigner isWritable : Bool) : List (Pubkey × Bool × Bool) :=
  match metas with
  | [] => [(k, isSigner, isWritable)]
  | (k', s', w') :: rest =>
      if k' = k then (k', s' || isSigner, w' || isWritable) :: rest
      else (k', s', w') :: upsertMeta rest k isSigner isWritable

/-- Collect the key metadata of a message: the fee payer (signer, writable),
every instruction account (flags or-ed), every program id (readonly,
non-signer). -/
def collectMetas (instructions : List Instruction) (payer : Pubkey) :
    List (Pubkey × Bool × Bool) :=
  let withAccounts := instructions.foldl
    (fun acc i => i.accounts.foldl
      (fun acc a => upsertMeta acc a.pubkey a.isSigner a.isWritable) acc)
    [(payer, true, true)]
  instructions.foldl (fun acc i => upsertMeta acc i.programId false false)
    withAccounts

/-- Lexicographic byte order on account keys (the BTreeMap order the
solana-sdk key compiler sorts each access class by). -/
def pubkeyLt : Pubkey → Pubkey → Bool
  | [], [] => false
  | [], _ :: _ => true
  | _ :: _, [] => false
  | a :: as', b :: bs' => if a < b then true else if b < a then false else pubkeyLt as' bs'

/-- Insertion sort by `pubkeyLt`. -/
def insertSorted (k : Pubkey) : List Pubkey → List Pubkey
  | [] => [k]
  | x :: rest => if pubkeyLt k x then k :: x :: rest else x :: insertSorted k rest

/-- Sort a key list by `pubkeyLt`. -/
def sortKeys (l : List Pubkey) : List Pubkey := l.foldr insertSorted []

/-- Compile one builder instruction against the assembled key list. -/
def compileInstruction (keys : List Pubkey) (i : Instruction) :
    CompiledInstruction :=
  ⟨keys.findIdx (· = i.programId),
   i.accounts.map (fun a => keys.findIdx (· = a.pubkey)),
   i.data⟩

/-- `Message.new_with_blockhash(instructions, payer, blockhash)`: assemble
the static key list — payer first, then the remaining writable signers,
readonly signers, writable non-signers and readonly non-signers, each class
sorted by key — build the header counts and compile every instruction. -/
def Message.newWithBlockhash (instructions : List Instruction) (payer : Pubkey)
    (recentBlockhash : List Nat) : Message :=
  let metas := (collectMetas instructions payer).filter (fun m => m.1 ≠ payer)
  let ws := sortKeys ((metas.filter (fun m => m.2.1 && m.2.2)).map (·.1))
  let rs := sortKeys ((metas.filter (fun m => m.2.1 && !m.2.2)).map (·.1))
  let wn := sortKeys ((metas.filter (fun m => !m.2.1 && m.2.2)).map (·.1))
  let rn := sortKeys ((metas.filter (fun m => !m.2.1 && !m.2.2)).map (·.1))
  let keys := payer :: (ws ++ rs ++ wn ++ rn)
  { header := ⟨1 + ws.length + rs.length, rs.length, rn.length⟩,
    accountKeys := keys,
    recentBlockhash := recentBlockhash,
    instructions := instructions.map (compileInstruction keys) }

/-- `Transaction.new_unsigned(message)`: default (all-zero) signatures, one
per required signer. -/
def Transaction.newUnsigned (message : Message) : Transaction :=
  ⟨List.replicate message.header.numRequiredSignatures (List.replicate 64 0),
   message⟩

/-- `create_transfer_transaction`: compute-price (1,000,000), compute-limit
(100,000), then a token transfer of `max_amount_required` units from the
client's associated token account to the recipient's, authority = client.
Associated-token-address derivation and the recent blockhash are external
(standard crypto and a gateway call) and passed in as `ata` and
`recentBlockhash`. -/
def create_transfer_transaction (ata : Pubkey → Pubkey → Pubkey)
    (clientPubkey : Pubkey) (paymentRequirements : PaymentRequirements)
    (recentBlockhash : List Nat) : Transaction :=
  let clientAta := ata clientPubkey paymentRequirements.asset
  let destinationAta := ata paymentRequirements.payTo paymentRequirements.asset
  let instructions :=
    [set_compute_unit_price 1000000,
     set_compute_unit_limit 100000,
     create_transfer_instruction clientAta destinationAta clientPubkey
       paymentRequirements.maxAmountRequired 6]
  Transaction.newUnsigned
    (Message.newWithBlockhash instructions clientPubkey recentBlockhash)

/-- `create_payment_payload`: build the transfer transaction, sign its
message bytes with the client's keypair only, and encode to base64. -/
def create_payment_payload (ata : Pubkey → Pubkey → Pubkey) (signer : Signer)
    (x402Version : Nat) (paymentRequirements : PaymentRequirements)
    (recentBlockhash : List Nat) : PaymentPayload :=
  let transaction :=
    create_transfer_transaction ata signer.pubkey paymentRequirements
      recentBlockhash
  let messageBytes := serMessage transaction.message
  let signature := signer.sign messageBytes
  let signedTransaction := Transaction.newSigned transaction.message [signature]
  let txBase64 := encode_transaction_to_base64 signedTransaction
  { x402Version := x402Version, scheme := paymentRequirements.scheme,
    network := paymentRequirements.network, payload := ⟨txBase64⟩ }

/-! ## Concrete fixtures

A concrete end-to-end scenario: requirements
`{maxAmountRequired: 1000000, network: "solana-devnet"}` and the payload the
client builder produces for them. -/

/-- The client's public key (a concrete 32-byte value). -/
def clientPubkey0 : Pubkey := List.replicate 32 1

/-- The SPL token mint of the scenario. -/
def assetPubkey0 : Pubkey := List.replicate 32 2

/-- The recipient of the scenario. -/
def payToPubkey0 : Pubkey := List.replicate 32 4

/-- The facilitator's fee-payer key of the scenario. -/
def feePayerPubkey0 : Pubkey := List.replicate 32 5

/-- A concrete stand-in for associated-token-address derivation (any
deterministic function of owner and mint serves the scenario). -/
def ata0 (owner mint : Pubkey) : Pubkey :=
  owner.zipWith (fun a b => (a + b) % 256) mint

/-- The client's signing capability, with a concrete signature value. -/
def clientSigner0 : Signer := ⟨clientPubkey0, fun _ => List.replicate 64 7⟩

/-- The facilitator's signing capability. -/
def facilitatorSigner0 : Signer := ⟨feePayerPubkey0, fun _ => List.replicate 64 8⟩

/-- The scenario's payment requirements. -/
def requirements0 : PaymentRequirements :=
  { scheme := "exact", network := "solana-devnet", maxAmountRequired := 1000000,
    asset := assetPubkey0, payTo := payToPubkey0,
    resource := "https://example.com/resource", description := "a resource",
    mimeType := "application/json", maxTimeoutSeconds := 60,
    extra := ⟨feePayerPubkey0⟩ }

/-- The payload the client builder produces for `requirements0`. -/
def payload0 : PaymentPayload :=
  create_payment_payload ata0 clientSigner0 1 requirements0 (List.replicate 32 9)

/-- The transaction value `payload0` carries: the built message, signed by
the client only (mirrors the body of `create_payment_payload`). -/
def decodedTx0 : Transaction :=
  Transaction.newSigned
    (create_transfer_transaction ata0 clientPubkey0 requirements0
      (List.replicate 32 9)).message
    [clientSigner0.sign (serMessage
      (create_transfer_transaction ata0 clientPubkey0 requirements0
        (List.replicate 32 9)).message)]

/-- A small concrete transaction for round-trip evaluation. -/
def tx0 : Transaction :=
  ⟨[List.replicate 64 7],
   ⟨⟨1, 0, 2⟩, [clientPubkey0, assetPubkey0, TOKEN_PROGRAM],
    List.replicate 32 9, [⟨2, [0, 1], [3, 64, 66, 15, 0, 0, 0, 0, 0]⟩]⟩⟩

/-- A network in which simulation succeeds, submission returns signature
`"SIG0"`, and no confirmation ever arrives. -/
def worldOk : RpcWorld :=
  ⟨fun _ _ => .ok ⟨false, false⟩, fun _ _ => .ok "SIG0", fun _ _ _ => .status false⟩

/-- A network whose `simulateTransaction` reply carries a JSON-RPC `error`
member. -/
def worldSimRpcError : RpcWorld :=
  ⟨fun _ _ => .rpcError "boom", fun _ _ => .ok "SIG0", fun _ _ _ => .status false⟩

/-! ## Claim theorems -/

/-- `Except` bind on a success, by definitional unfolding. -/
theorem except_bind_ok {ε α β : Type} (a : α) (f : α → Except ε β) :
    (Except.ok a >>= f) = f a := rfl

/-- `Except` bind on a failure, by definitional unfolding. -/
theorem except_bind_err {ε α β : Type} (e : ε) (f : α → Except ε β) :
    ((Except.error e : Except ε α) >>= f) = Except.error e := rfl

/-- C7: on every input string on which decoding fails, the single error code
is `invalid_exact_svm_payload_transaction`: `decode_transaction_from_base64`
either succeeds or fails with exactly
`ValueError("invalid_exact_svm_payload_transaction")`, never propagating a
lower-level parse exception. -/
theorem decode_failure_single_error_code (s : String) :
    (∃ tx, decode_transaction_from_base64 s = .ok tx) ∨
    decode_transaction_from_base64 s =
      .error (.valueError "invalid_exact_svm_payload_transaction") := by
  cases hb : b64decodeChars s.data with
  | none => exact .inr (by simp [decode_transaction_from_base64, hb])
  | some txBytes =>
      cases ht : txFromBytes txBytes with
      | none => exact .inr (by simp [decode_transaction_from_base64, hb, ht])
      | some tx =>
          exact .inl ⟨tx, by simp [decode_transaction_from_base64, hb, ht]⟩

/-- C8: the codec round-trip law — decoding the base64 encoding of any
well-formed transaction value yields a structurally equal transaction. -/
theorem decode_encode_roundtrip (t : Transaction) (h : WFTransaction t) :
    decode_transaction_from_base64 (encode_transaction_to_base64 t) = .ok t := by
  have hsigs : ∀ s ∈ t.signatures, s.length = 64 := fun s hs => (h.1 s hs).1
  have hkeys : ∀ k ∈ t.message.accountKeys, k.length = 32 :=
    fun k hk => (h.2.2.2.2.2.1 k hk).1
  have hbh : t.message.recentBlockhash.length = 32 := h.2.2.2.2.2.2.2.1
  simp only [encode_transaction_to_base64, decode_transaction_from_base64,
    b64decode_b64encode _ (serTransaction_lt t h),
    txFromBytes_serTransaction t hsigs hkeys hbh]

/-- Witness for C8 at a concrete transaction. -/
theorem decode_encode_roundtrip_witness :
    WFTransaction tx0 ∧
    decode_transaction_from_base64 (encode_transaction_to_base64 tx0) = .ok tx0 :=
  ⟨by decide, decode_encode_roundtrip tx0 (by decide)⟩

/-- C3: amount monotonicity of `verify_transfer_instruction` — for a
transfer instruction with a valid token program id and at least 9 bytes of
data, letting `a` be the little-endian u64 at offset 1 and `r` the required
amount: `a ≥ r` is accepted, `a < r` is rejected with
`invalid_exact_svm_payload_transaction_amount_mismatch`. -/
theorem verify_transfer_amount_monotone (keys : List Pubkey)
    (instruction : CompiledInstruction)
    (paymentRequirements : PaymentRequirements) (rpcUrl : String) (pid : Pubkey)
    (hpid : keys[instruction.programIdIndex]? = some pid)
    (htoken : pid = TOKEN_PROGRAM ∨ pid = TOKEN_2022_PROGRAM)
    (hlen : 9 ≤ instruction.data.length) :
    (paymentRequirements.maxAmountRequired ≤
        leVal ((instruction.data.drop 1).take 8) →
      verify_transfer_instruction keys instruction paymentRequirements rpcUrl =
        .ok ()) ∧
    (leVal ((instruction.data.drop 1).take 8) <
        paymentRequirements.maxAmountRequired →
      verify_transfer_instruction keys instruction paymentRequirements rpcUrl =
        .error (.valueError
          "invalid_exact_svm_payload_transaction_amount_mismatch")) := by
  have hnot : ¬ (pid ≠ TOKEN_PROGRAM ∧ pid ≠ TOKEN_2022_PROGRAM) := by
    rcases htoken with rfl | rfl <;> simp
  have hlen8 : ((instruction.data.drop 1).take 8).length = 8 := by
    simp only [List.length_take, List.length_drop]
    omega
  have hnotlt : ¬ instruction.data.length < 9 := by omega
  constructor
  · intro hge
    simp only [verify_transfer_instruction, compiledProgramId, hpid, bind,
      Except.bind, hnot, if_false, hnotlt, structUnpackU64, hlen8, if_true,
      reduceIte]
    rw [if_neg (by omega)]
  · intro hlt
    simp only [verify_transfer_instruction, compiledProgramId, hpid, bind,
      Except.bind, hnot, if_false, hnotlt, structUnpackU64, hlen8, if_true,
      reduceIte]
    rw [if_pos hlt]

/-- Witness for C3: a transfer of exactly the required 1,000,000 units is
accepted, and one unit less is rejected with the amount-mismatch code. -/
theorem verify_transfer_amount_monotone_witness :
    verify_transfer_instruction [TOKEN_PROGRAM] ⟨0, [], 3 :: u64le 1000000⟩
      requirements0 DEVNET_ENDPOINT = .ok () ∧
    verify_transfer_instruction [TOKEN_PROGRAM] ⟨0, [], 3 :: u64le 999999⟩
      requirements0 DEVNET_ENDPOINT =
      .error (.valueError
        "invalid_exact_svm_payload_transaction_amount_mismatch") :=
  ⟨(verify_transfer_amount_monotone [TOKEN_PROGRAM] ⟨0, [], 3 :: u64le 1000000⟩
      requirements0 DEVNET_ENDPOINT TOKEN_PROGRAM (by decide) (.inl rfl)
      (by decide)).1 (by decide),
   (verify_transfer_amount_monotone [TOKEN_PROGRAM] ⟨0, [], 3 :: u64le 999999⟩
      requirements0 DEVNET_ENDPOINT TOKEN_PROGRAM (by decide) (.inl rfl)
      (by decide)).2 (by decide)⟩

/-- C4: the compute-price ceiling — for a compute-price instruction
targeting the compute-budget program with tag byte 3, the 8-byte
little-endian price at offset 1 is compared against 5,000,000: a price equal
to the ceiling passes and a strictly greater price fails with the
`..._compute_price_instruction_too_high` code. -/
theorem compute_price_ceiling (keys : List Pubkey) (idx : Nat)
    (accts : List Nat) (price : Nat) (ix2 : CompiledInstruction)
    (hpid : keys[idx]? = some COMPUTE_BUDGET_PROGRAM_ID)
    (hprice : price < 2 ^ 64) :
    (price ≤ 5000000 →
      verify_compute_budget_instructions keys
        [⟨idx, accts, 3 :: u64le price⟩, ix2] = .ok ()) ∧
    (5000000 < price →
      verify_compute_budget_instructions keys
        [⟨idx, accts, 3 :: u64le price⟩, ix2] =
        .error (.valueError
          "invalid_exact_svm_payload_transaction_instructions_compute_price_instruction_too_high")) := by
  have h1 : compiledProgramId keys ⟨idx, accts, 3 :: u64le price⟩ =
      .ok COMPUTE_BUDGET_PROGRAM_ID := by
    simp [compiledProgramId, hpid]
  have h2 : structUnpackU64 (((3 :: u64le price).drop 1).take 8) = .ok price := by
    have hdrop : ((3 :: u64le price).drop 1).take 8 = u64le price := by
      simp [u64le]
    rw [hdrop]
    simp [structUnpackU64, u64le_length, leVal_u64le price hprice]
  constructor
  · intro hle
    simp only [verify_compute_budget_instructions]
    rw [h1, except_bind_ok,
      if_neg (show ¬ COMPUTE_BUDGET_PROGRAM_ID ≠ COMPUTE_BUDGET_PROGRAM_ID
        from by simp),
      if_pos (show (3 :: u64le price).length > 1 from by simp [u64le]),
      if_pos (show (3 :: u64le price).getD 0 0 = 3 from rfl),
      h2, except_bind_ok, if_neg (by omega)]
  · intro hgt
    simp only [verify_compute_budget_instructions]
    rw [h1, except_bind_ok,
      if_neg (show ¬ COMPUTE_BUDGET_PROGRAM_ID ≠ COMPUTE_BUDGET_PROGRAM_ID
        from by simp),
      if_pos (show (3 :: u64le price).length > 1 from by simp [u64le]),
      if_pos (show (3 :: u64le price).getD 0 0 = 3 from rfl),
      h2, except_bind_ok, if_pos (by omega)]

/-- Witness for C4: a price of exactly 5,000,000 passes; 5,000,001 fails
with the `_too_high` code. -/
theorem compute_price_ceiling_witness :
    verify_compute_budget_instructions [COMPUTE_BUDGET_PROGRAM_ID]
      [⟨0, [], 3 :: u64le 5000000⟩, ⟨0, [], []⟩] = .ok () ∧
    verify_compute_budget_instructions [COMPUTE_BUDGET_PROGRAM_ID]
      [⟨0, [], 3 :: u64le 5000001⟩, ⟨0, [], []⟩] =
      .error (.valueError
        "invalid_exact_svm_payload_transaction_instructions_compute_price_instruction_too_high") :=
  ⟨(compute_price_ceiling [COMPUTE_BUDGET_PROGRAM_ID] 0 [] 5000000 ⟨0, [], []⟩
      (by decide) (by decide)).1 (by decide),
   (compute_price_ceiling [COMPUTE_BUDGET_PROGRAM_ID] 0 [] 5000001 ⟨0, [], []⟩
      (by decide) (by decide)).2 (by decide)⟩

/-- C2 (the code-level divergence): the compute-price read is guarded only
by `len(data) > 1` before slicing 8 bytes at offset 1, so a 2-byte buffer
with tag byte 3 drives `struct.unpack` into a `struct.error` — an unpacking
exception, not a typed malformed error code.  (The transfer-side read is
properly bounds-checked against 9 bytes.) -/
theorem compute_price_short_buffer_unpack_error :
    verify_compute_budget_instructions [COMPUTE_BUDGET_PROGRAM_ID]
      [⟨0, [], [3, 0]⟩, ⟨0, [], []⟩] =
      .error (.otherError "struct.error") ∧
    verify_transfer_instruction [TOKEN_PROGRAM] ⟨0, [], [3, 0]⟩ requirements0
      DEVNET_ENDPOINT =
      .error (.valueError "invalid_exact_svm_payload_transaction_instructions") := by
  exact ⟨by decide, by decide⟩

/-- C10: the instruction at index 1 (the "compute-limit" slot) is never
examined — two decoded transactions that differ only in their second
instruction receive identical introspection results. -/
theorem introspection_ignores_second_instruction (sigs : List (List Nat))
    (header : MessageHeader) (keys : List Pubkey) (bh : List Nat)
    (a b b' c : CompiledInstruction) (rest : List CompiledInstruction)
    (req : PaymentRequirements) (rpcUrl : String) :
    introspect_decoded ⟨sigs, ⟨header, keys, bh, a :: b :: c :: rest⟩⟩ req rpcUrl =
    introspect_decoded ⟨sigs, ⟨header, keys, bh, a :: b' :: c :: rest⟩⟩ req rpcUrl := by
  simp only [introspect_decoded, verify_compute_budget_instructions]

/-- Inversion of a successful run of the `try` body of `verify_payment`:
the response is valid with no reason, and the decode, RPC-URL and
payer-extraction stages all succeeded. -/
theorem verify_payment_inner_ok (world : RpcWorld) (signer : Signer)
    (payload : PaymentPayload) (req : PaymentRequirements)
    (customRpcUrl : Option String) (r : VerifyResponse)
    (h : verify_payment_inner world signer payload req customRpcUrl = .ok r) :
    r.isValid = true ∧ r.invalidReason = none ∧
    ∃ tx url, decode_transaction_from_payload payload.payload = .ok tx ∧
      create_rpc_client req.network customRpcUrl = .ok url ∧
      get_token_payer_from_transaction tx = .ok r.payer := by
  unfold verify_payment_inner at h
  cases h0 : verify_schemes_and_networks payload req with
  | error e => rw [h0, except_bind_err] at h; cases h
  | ok u =>
      rw [h0, except_bind_ok] at h
      cases h1 : decode_transaction_from_payload payload.payload with
      | error e => rw [h1, except_bind_err] at h; cases h
      | ok tx =>
          rw [h1, except_bind_ok] at h
          cases h2 : create_rpc_client req.network customRpcUrl with
          | error e => rw [h2, except_bind_err] at h; cases h
          | ok url =>
              rw [h2, except_bind_ok] at h
              cases h3 : transaction_introspection payload.payload req url with
              | error e => rw [h3, except_bind_err] at h; cases h
              | ok v =>
                  rw [h3, except_bind_ok] at h
                  cases h4 : simulate_transaction world url tx true with
                  | error e => rw [h4, except_bind_err] at h; cases h
                  | ok simRes =>
                      rw [h4, except_bind_ok] at h
                      cases he : simRes.err with
                      | true => simp [he] at h
                      | false =>
                          cases hve : simRes.valueErr with
                          | true => simp [he, hve] at h
                          | false =>
                              simp only [he, hve, Bool.false_eq_true, if_false] at h
                              cases h5 : get_token_payer_from_transaction tx with
                              | error e => rw [h5, except_bind_err] at h; cases h
                              | ok p =>
                                  rw [h5, except_bind_ok] at h
                                  injection h with h'
                                  subst h'
                                  exact ⟨rfl, rfl, tx, url, rfl, rfl, h5⟩

/-- Case analysis of `verify_payment`: a successful body, a recognised
`ValueError`, an unrecognised `ValueError` (re-raised), or any other
exception (collapsed to `unexpected_verify_error`). -/
theorem verify_payment_spec (world : RpcWorld) (signer : Signer)
    (payload : PaymentPayload) (req : PaymentRequirements)
    (customRpcUrl : Option String) :
    (∃ r, verify_payment_inner world signer payload req customRpcUrl = .ok r ∧
      verify_payment world signer payload req customRpcUrl = .ok r) ∨
    (∃ m, verify_payment_inner world signer payload req customRpcUrl =
        .error (.valueError m) ∧ m ∈ ERROR_REASONS ∧
      verify_payment world signer payload req customRpcUrl =
        .ok ⟨false, some m, bestEffortPayer payload.payload⟩) ∨
    (∃ m, verify_payment_inner world signer payload req customRpcUrl =
        .error (.valueError m) ∧ m ∉ ERROR_REASONS ∧
      verify_payment world signer payload req customRpcUrl =
        .error (.valueError m)) ∨
    (∃ m, verify_payment_inner world signer payload req customRpcUrl =
        .error (.otherError m) ∧
      verify_payment world signer payload req customRpcUrl =
        .ok ⟨false, some "unexpected_verify_error", bestEffortPayer payload.payload⟩) := by
  cases hi : verify_payment_inner world signer payload req customRpcUrl with
  | ok r => exact .inl ⟨r, rfl, by simp [verify_payment, hi]⟩
  | error pe =>
      cases pe with
      | valueError msg =>
          by_cases hm : msg ∈ ERROR_REASONS
          · exact .inr (.inl ⟨msg, rfl, hm, by simp [verify_payment, hi, hm]⟩)
          · exact .inr (.inr (.inl ⟨msg, rfl, hm, by simp [verify_payment, hi, hm]⟩))
      | otherError m =>
          exact .inr (.inr (.inr ⟨m, rfl, by simp [verify_payment, hi]⟩))

/-- Case analysis of `settle_payment`: either verification escaped with an
exception (which settlement re-raises), or settlement returns a structured
response whose `errorReason` is set whenever `success` is false. -/
theorem settle_payment_spec (world : RpcWorld) (signer : Signer)
    (payload : PaymentPayload) (req : PaymentRequirements)
    (customRpcUrl : Option String) :
    (∃ e, settle_payment world signer payload req customRpcUrl = .error e ∧
      verify_payment world signer payload req customRpcUrl = .error e) ∨
    (∃ r, settle_payment world signer payload req customRpcUrl = .ok r ∧
      (r.success = false → ∃ m, r.errorReason = some m)) := by
  rcases verify_payment_spec world signer payload req customRpcUrl with
    ⟨r, hir, hvr⟩ | ⟨m, him, hmem, hvr⟩ | ⟨m, him, hmem, hvr⟩ | ⟨m, him, hvr⟩
  · obtain ⟨hvalid, hreason, tx, url, hdec, hurl, hpayer⟩ :=
      verify_payment_inner_ok world signer payload req customRpcUrl r hir
    rcases hsc : send_and_confirm_transaction world url
        (Transaction.newSigned tx.message
          (tx.signatures ++ [signer.sign (serMessage tx.message)])) "confirmed"
      with ⟨s, sig, err⟩
    by_cases hcond : (s ∧ sig.getD "" ≠ "")
    · refine .inr ⟨⟨true, none, sig.getD "", payload.network, r.payer⟩, ?_, ?_⟩
      · unfold settle_payment
        rw [hvr, except_bind_ok]
        simp only [hvalid, Bool.not_true, Bool.false_eq_true, if_false]
        rw [hdec, except_bind_ok, hpayer, except_bind_ok, hurl, except_bind_ok]
        simp only [hsc]
        rw [if_pos hcond]
        rfl
      · intro hfalse; cases hfalse
    · cases err with
      | none =>
          refine .inr ⟨⟨false, some "transaction_failed", sig.getD "",
            payload.network, r.payer⟩, ?_, fun _ => ⟨_, rfl⟩⟩
          unfold settle_payment
          rw [hvr, except_bind_ok]
          simp only [hvalid, Bool.not_true, Bool.false_eq_true, if_false]
          rw [hdec, except_bind_ok, hpayer, except_bind_ok, hurl, except_bind_ok]
          simp only [hsc]
          rw [if_neg hcond]
          rfl
      | some e =>
          refine .inr ⟨⟨false, some (pyStr e), sig.getD "",
            payload.network, r.payer⟩, ?_, fun _ => ⟨_, rfl⟩⟩
          unfold settle_payment
          rw [hvr, except_bind_ok]
          simp only [hvalid, Bool.not_true, Bool.false_eq_true, if_false]
          rw [hdec, except_bind_ok, hpayer, except_bind_ok, hurl, except_bind_ok]
          simp only [hsc]
          rw [if_neg hcond]
          rfl
  · refine .inr ⟨⟨false, some m, "", payload.network,
      bestEffortPayer payload.payload⟩, ?_, fun _ => ⟨m, rfl⟩⟩
    unfold settle_payment
    rw [hvr, except_bind_ok]
    simp only [Bool.not_false, if_true]
    rfl
  · exact .inl ⟨.valueError m, by
      unfold settle_payment
      rw [hvr, except_bind_err], hvr⟩
  · refine .inr ⟨⟨false, some "unexpected_verify_error", "", payload.network,
      bestEffortPayer payload.payload⟩, ?_, fun _ => ⟨_, rfl⟩⟩
    unfold settle_payment
    rw [hvr, except_bind_ok]
    simp only [Bool.not_false, if_true]
    rfl

/-- C1 (amended): the engines' error taxonomy.  Every structured
`VerifyResponse` surfaces only members of the closed `ERROR_REASONS` set
(unrecognised non-`ValueError` failures are collapsed to
`unexpected_verify_error`), and a failed structured settlement always
carries an `errorReason`; but a `ValueError` whose message is outside the
closed set — e.g. a gateway-reported simulation error — escapes
`verify_payment` as an exception and propagates through `settle_payment`,
and those are the only exceptions either engine can raise. -/
theorem engines_error_taxonomy (world : RpcWorld) (signer : Signer)
    (payload : PaymentPayload) (req : PaymentRequirements)
    (customRpcUrl : Option String) :
    (∀ e, verify_payment world signer payload req customRpcUrl = .error e →
      ∃ m, e = .valueError m ∧ m ∉ ERROR_REASONS) ∧
    (∀ r m, verify_payment world signer payload req customRpcUrl = .ok r →
      r.invalidReason = some m → m ∈ ERROR_REASONS) ∧
    (∀ e, settle_payment world signer payload req customRpcUrl = .error e →
      ∃ m, e = .valueError m ∧ m ∉ ERROR_REASONS) ∧
    (∀ r, settle_payment world signer payload req customRpcUrl = .ok r →
      r.success = false → ∃ m, r.errorReason = some m) := by
  have hverr : ∀ e, verify_payment world signer payload req customRpcUrl = .error e →
      ∃ m, e = .valueError m ∧ m ∉ ERROR_REASONS := by
    intro e he
    rcases verify_payment_spec world signer payload req customRpcUrl with
      ⟨r, -, hvr⟩ | ⟨m, -, -, hvr⟩ | ⟨m, -, hmem, hvr⟩ | ⟨m, -, hvr⟩ <;>
      rw [hvr] at he
    · cases he
    · cases he
    · injection he with he'
      exact ⟨m, he'.symm, hmem⟩
    · cases he
  refine ⟨hverr, ?_, ?_, ?_⟩
  · intro r m hvr hm
    rcases verify_payment_spec world signer payload req customRpcUrl with
      ⟨r', hir, hvr'⟩ | ⟨m', -, hmem, hvr'⟩ | ⟨m', -, -, hvr'⟩ | ⟨m', -, hvr'⟩ <;>
      rw [hvr'] at hvr
    · injection hvr with h'
      subst h'
      obtain ⟨-, hnone, -⟩ :=
        verify_payment_inner_ok world signer payload req customRpcUrl _ hir
      rw [hnone] at hm
      cases hm
    · injection hvr with h'
      subst h'
      injection hm with h''
      subst h''
      exact hmem
    · cases hvr
    · injection hvr with h'
      subst h'
      injection hm with h''
      subst h''
      decide
  · intro e he
    rcases settle_payment_spec world signer payload req customRpcUrl with
      ⟨e', hse, hve⟩ | ⟨r, hsr, -⟩
    · rw [hse] at he
      injection he with h'
      subst h'
      exact hverr e' hve
    · rw [hsr] at he
      cases he
  · intro r hsr hfalse
    rcases settle_payment_spec world signer payload req customRpcUrl with
      ⟨e', hse, -⟩ | ⟨r', hsr', hreason⟩
    · rw [hse] at hsr
      cases hsr
    · rw [hsr'] at hsr
      injection hsr with h'
      subst h'
      exact hreason hfalse

/-- Counterexample to C1 as stated: with a gateway whose simulation reply
carries a JSON-RPC `error` member, both engines raise
`ValueError("Simulation error: ...")` to the caller — a string outside the
closed taxonomy — instead of returning a structured response. -/
theorem engines_raise_on_simulation_rpc_error :
    verify_payment worldSimRpcError facilitatorSigner0 payload0 requirements0
      none = .error (.valueError "Simulation error: boom") ∧
    settle_payment worldSimRpcError facilitatorSigner0 payload0 requirements0
      none = .error (.valueError "Simulation error: boom") ∧
    "Simulation error: boom" ∉ ERROR_REASONS :=
  ⟨by decide, by decide, by decide⟩

/-- Witness for the amended C1: the taxonomy-membership conjunct at a
concrete invalid run, and the settle-escape conjunct at a concrete escaping
run. -/
theorem engines_error_taxonomy_witness :
    "invalid_network" ∈ ERROR_REASONS ∧
    (∃ m, (PyErr.valueError "Simulation error: boom") = .valueError m ∧
      m ∉ ERROR_REASONS) :=
  ⟨(engines_error_taxonomy worldOk facilitatorSigner0 payload0
      { requirements0 with network := "solana" } none).2.1
      ⟨false, some "invalid_network", bestEffortPayer payload0.payload⟩
      "invalid_network" (by decide) rfl,
   (engines_error_taxonomy worldSimRpcError facilitatorSigner0 payload0
      requirements0 none).2.2.1 (.valueError "Simulation error: boom")
      (by decide)⟩

/-- C6: the scheme/network guard runs first.  For any gateway behaviour and
any transaction body: with both schemes `"exact"` (as the pydantic `Literal`
types guarantee), a network mismatch or an unsupported requirement network
yields a structured `invalid_network` response; a non-`"exact"` scheme on
either side yields `unsupported_scheme`. -/
theorem scheme_network_guard_first (world : RpcWorld) (signer : Signer)
    (payload : PaymentPayload) (req : PaymentRequirements)
    (customRpcUrl : Option String) :
    ((payload.scheme = "exact" ∧ req.scheme = "exact") →
      (payload.network ≠ req.network ∨ req.network ∉ ["solana", "solana-devnet"]) →
      verify_payment world signer payload req customRpcUrl =
        .ok ⟨false, some "invalid_network", bestEffortPayer payload.payload⟩) ∧
    ((payload.scheme ≠ "exact" ∨ req.scheme ≠ "exact") →
      verify_payment world signer payload req customRpcUrl =
        .ok ⟨false, some "unsupported_scheme", bestEffortPayer payload.payload⟩) := by
  constructor
  · rintro ⟨hps, hrs⟩ hnet
    have hvsn : verify_schemes_and_networks payload req =
        .error (.valueError "invalid_network") := by
      unfold verify_schemes_and_networks
      rw [if_neg (by simp [hps, hrs])]
      rcases hnet with h | h
      · rw [if_pos h]
      · by_cases hm : payload.network ≠ req.network
        · rw [if_pos hm]
        · rw [if_neg hm, if_pos h]
    have hinner : verify_payment_inner world signer payload req customRpcUrl =
        .error (.valueError "invalid_network") := by
      unfold verify_payment_inner
      rw [hvsn, except_bind_err]
    simp only [verify_payment, hinner]
    rw [if_pos (show "invalid_network" ∈ ERROR_REASONS from by decide)]
  · intro hscheme
    have hvsn : verify_schemes_and_networks payload req =
        .error (.valueError "unsupported_scheme") := by
      unfold verify_schemes_and_networks
      rw [if_pos hscheme]
    have hinner : verify_payment_inner world signer payload req customRpcUrl =
        .error (.valueError "unsupported_scheme") := by
      unfold verify_payment_inner
      rw [hvsn, except_bind_err]
    simp only [verify_payment, hinner]
    rw [if_pos (show "unsupported_scheme" ∈ ERROR_REASONS from by decide)]

/-- Witness for C6: a requirement network differing from the payload's
(`"solana"` vs `"solana-devnet"`) is rejected with `invalid_network` even
though the transaction body would otherwise validate; a non-`"exact"` scheme
is rejected with `unsupported_scheme`. -/
theorem scheme_network_guard_first_witness :
    verify_payment worldOk facilitatorSigner0 payload0
      { requirements0 with network := "solana" } none =
      .ok ⟨false, some "invalid_network", bestEffortPayer payload0.payload⟩ ∧
    verify_payment worldOk facilitatorSigner0 payload0
      { requirements0 with scheme := "other" } none =
      .ok ⟨false, some "unsupported_scheme", bestEffortPayer payload0.payload⟩ :=
  ⟨(scheme_network_guard_first worldOk facilitatorSigner0 payload0
      { requirements0 with network := "solana" } none).1 (by decide)
      (.inl (by decide)),
   (scheme_network_guard_first worldOk facilitatorSigner0 payload0
      { requirements0 with scheme := "other" } none).2 (.inr (by decide))⟩

/-- If no poll in the window reports a status, the confirmation loop ends in
optimistic success with the signature. -/
theorem confirmLoop_no_status (world : RpcWorld) (url sig : String) :
    ∀ (n attempt : Nat),
      (∀ i, attempt ≤ i → i < attempt + n →
        world.statusRaw url sig i = .status false) →
      confirmLoop world url sig attempt n = (true, some sig, none) := by
  intro n
  induction n with
  | zero => intro attempt _; rfl
  | succ n ih =>
      intro attempt h
      have h0 : world.statusRaw url sig attempt = .status false :=
        h attempt (le_refl _) (by omega)
      simp only [confirmLoop, h0]
      exact ih (attempt + 1) (fun i h1 h2 => h i (by omega) (by omega))

/-- C9: optimistic settlement.  When verification succeeds, submission
returns a (non-empty) signature, and none of the 40 polls reports a status,
`settle_payment` still returns `success = true` with that signature and no
`errorReason`. -/
theorem settle_timeout_soft_success (world : RpcWorld) (signer : Signer)
    (payload : PaymentPayload) (req : PaymentRequirements)
    (customRpcUrl : Option String) (vr : VerifyResponse) (tx : Transaction)
    (p : Option Pubkey) (url sig : String)
    (hv : verify_payment world signer payload req customRpcUrl = .ok vr)
    (hvalid : vr.isValid = true)
    (hdec : decode_transaction_from_payload payload.payload = .ok tx)
    (hpayer : get_token_payer_from_transaction tx = .ok p)
    (hurl : create_rpc_client req.network customRpcUrl = .ok url)
    (hsend : world.sendRaw url (Transaction.newSigned tx.message
      (tx.signatures ++ [signer.sign (serMessage tx.message)])) = .ok sig)
    (hsig : sig ≠ "")
    (hpoll : ∀ i, i < 40 → world.statusRaw url sig i = .status false) :
    settle_payment world signer payload req customRpcUrl =
      .ok ⟨true, none, sig, payload.network, p⟩ := by
  have hsc : send_and_confirm_transaction world url
      (Transaction.newSigned tx.message
        (tx.signatures ++ [signer.sign (serMessage tx.message)])) "confirmed" =
      (true, some sig, none) := by
    unfold send_and_confirm_transaction
    rw [hsend]
    exact confirmLoop_no_status world url sig 40 0
      (fun i _ h2 => hpoll i (by omega))
  unfold settle_payment
  rw [hv, except_bind_ok]
  simp only [hvalid, Bool.not_true, Bool.false_eq_true, if_false]
  rw [hdec, except_bind_ok, hpayer, except_bind_ok, hurl, except_bind_ok]
  simp only [hsc]
  rw [if_pos ⟨trivial, by simpa using hsig⟩]
  rfl

/-- Witness for C9: the concrete scenario run — gateway accepts the
submission with signature `"SIG0"`, every poll returns no status, and
settlement reports success with that signature. -/
theorem settle_timeout_soft_success_witness :
    settle_payment worldOk facilitatorSigner0 payload0 requirements0 none =
      .ok ⟨true, none, "SIG0", payload0.network, none⟩ :=
  settle_timeout_soft_success worldOk facilitatorSigner0 payload0 requirements0
    none ⟨true, none, none⟩ decodedTx0 none DEVNET_ENDPOINT "SIG0"
    (by decide) rfl (by decide) (by decide) rfl rfl (by decide)
    (fun i _ => rfl)

/-- C5 (the code-level divergence): the end-to-end scenario.  For
requirements `{maxAmountRequired: 1000000, network: "solana-devnet"}` and
the builder-constructed, client-signed transaction (which decodes back to
`decodedTx0`), verification under a succeeding gateway simulation returns
`isValid = true` — but `payer = none`, not the client's public key: the
builder emits a 3-account `Transfer` instruction while the payer extraction
demands at least 4 referenced accounts (the `TransferChecked` layout), so
the scan never matches. -/
theorem builder_scenario_verify_payer_none :
    verify_payment worldOk facilitatorSigner0 payload0 requirements0 none =
      .ok ⟨true, none, none⟩ ∧
    decode_transaction_from_payload payload0.payload = .ok decodedTx0 ∧
    get_token_payer_from_transaction decodedTx0 = .ok none :=
  ⟨by decide, by decide, by decide⟩
